import Mathlib

/-!
Verification development for the `proxyforwarder` TCP forwarder
(`src/tcp_forwarder.cpp`). The asynchronous C++ core is shallowly embedded:
completion handlers become pure functions from completion outcomes to the
actions they perform, event loops become recursion over the list of
completion outcomes the reactor delivers, and the shared connection counter
becomes explicit `Int` state threaded through those functions.
-/

namespace ProxyForwarder

/-- A TCP endpoint: an address string and a port, as built by
`tcp::endpoint(make_address(addr), port)` in the C++ source. Ports are C++
`int`s, modelled as `Int`. -/
structure Endpoint where
  address : String
  port : Int
deriving DecidableEq, Repr

/-- One entry of the `forwarders:` list of the YAML configuration, as read by
`TCPForwarder::TCPForwarder` (tcp_forwarder.cpp lines 479-503): the
`listen_address` and `target_address` strings, the optional
`port_range` node with its `start` and `end` fields, and the `listen_port` /
`target_port` fields that the constructor reads only when `port_range` is
absent. -/
structure ForwardRule where
  listen_address : String
  target_address : String
  port_range : Option (Int × Int)
  listen_port : Int
  target_port : Int
deriving DecidableEq, Repr

/-- The listener/target pairs created by `TCPForwarder::TCPForwarder` for one
forwarder entry (tcp_forwarder.cpp lines 484-502). With a `port_range`, the
loop `for (int port = start_port; port <= end_port; ++port)` builds, for each
`port`, a listen endpoint on `port` and a target endpoint on that same
`port` (the constructor passes the loop variable `port` to both endpoints;
`target_port` is not read in this branch). Without a range it builds the
single pair from `listen_port` and `target_port`. -/
def expand_rule (r : ForwardRule) : List (Endpoint × Endpoint) :=
  match r.port_range with
  | some (start_port, end_port) =>
    (List.range (end_port + 1 - start_port).toNat).map (fun i : Nat =>
      (⟨r.listen_address, start_port + (i : Int)⟩,
       ⟨r.target_address, start_port + (i : Int)⟩))
  | none =>
    [(⟨r.listen_address, r.listen_port⟩, ⟨r.target_address, r.target_port⟩)]

/-- Outcome of one `async_accept` completion in `TCPForwarder::plz_accept`:
either the accept failed with an error code `ec`, or it delivered a connected
inbound socket. -/
inductive AcceptEvent where
  | acceptError : AcceptEvent
  | acceptOk : AcceptEvent
deriving DecidableEq, Repr

/-- What one execution of the `plz_accept` completion handler
(tcp_forwarder.cpp lines 518-531) does: whether it closed the inbound
socket, whether it constructed a `Session`, whether that session issued an
outbound connect, the value of `active_connections_` when the handler
returns, whether the handler re-armed `async_accept`, and whether it
terminated the process. -/
structure HandlerResult where
  socket_closed : Bool
  session_created : Bool
  connect_attempted : Bool
  counter : Int
  rearmed : Bool
  process_terminated : Bool
deriving DecidableEq, Repr

/-- The `plz_accept` completion handler (tcp_forwarder.cpp lines 518-531).
On an accept error it only logs. On success it rejects (closing the inbound
socket) when `active_connections_ >= max_connections`; otherwise it
constructs a `Session` (whose constructor increments the counter) and calls
`start()`, which issues an outbound connect iff `0 < retry_attempts`
(`Session::attempt_connection` returns immediately when
`current_attempt_ >= retry_attempts_`, and `current_attempt_` starts at 0).
In every branch the handler ends by calling `plz_accept` again and never
ends the process. -/
def plz_accept_handler (max_connections retry_attempts active : Int)
    (ev : AcceptEvent) : HandlerResult :=
  match ev with
  | .acceptError =>
    { socket_closed := false, session_created := false, connect_attempted := false,
      counter := active, rearmed := true, process_terminated := false }
  | .acceptOk =>
    if active ≥ max_connections then
      { socket_closed := true, session_created := false, connect_attempted := false,
        counter := active, rearmed := true, process_terminated := false }
    else
      { socket_closed := false, session_created := true,
        connect_attempted := decide (0 < retry_attempts),
        counter := active + 1, rearmed := true, process_terminated := false }

/-- A run of the accept loop over a list of accept completions, threading
`active_connections_` through `plz_accept_handler`. Returns the final
counter, the number of `Session`s constructed, and the number of inbound
sockets closed by admission rejection. Sessions admitted during the run are
conservatively kept alive (no destructor runs), which maximises the counter. -/
def accept_loop_run (max_connections retry_attempts : Int) :
    Int → List AcceptEvent → Int × Nat × Nat
  | active, [] => (active, 0, 0)
  | active, ev :: rest =>
    let r := plz_accept_handler max_connections retry_attempts active ev
    let (fin, created, closed) := accept_loop_run max_connections retry_attempts r.counter rest
    (fin, (if r.session_created then 1 else 0) + created,
      (if r.socket_closed then 1 else 0) + closed)

/-- An event observable during `Session::attempt_connection`: one outbound
`async_connect` attempt, or one `timer_.async_wait` of `retry_delay` seconds
between attempts. -/
inductive RetryEvent where
  | connectAttempt : RetryEvent
  | timerWait : Int → RetryEvent
deriving DecidableEq, Repr

/-- `Session::attempt_connection` (tcp_forwarder.cpp lines 348-376), run to
quiescence against a connect oracle: `connect_ok n` tells whether the
`async_connect` issued while `current_attempt_ = n` succeeds. Returns the
list of events (connect attempts interleaved with the `retry_delay`-second
timer waits that separate them) and whether `plz_forward()` was reached
(i.e. the session entered Forwarding). The function returns with no further
event when `current_attempt_ >= retry_attempts_`; on a failed connect it
increments `current_attempt_`, waits `retry_delay_` seconds on the
per-session timer, and re-enters itself. -/
def attempt_connection (retry_attempts retry_delay : Int)
    (connect_ok : Int → Bool) (current_attempt : Int) :
    List RetryEvent × Bool :=
  if retry_attempts ≤ current_attempt then
    ([], false)
  else if connect_ok current_attempt then
    ([.connectAttempt], true)
  else
    let rest := attempt_connection retry_attempts retry_delay connect_ok (current_attempt + 1)
    (.connectAttempt :: .timerWait retry_delay :: rest.1, rest.2)
termination_by (retry_attempts - current_attempt).toNat
decreasing_by
  simp_wf
  omega

/-- The error-code classification relevant to `Session::forward_data`:
success, `boost::asio::error::operation_aborted` (cancellation), or any
other error. -/
inductive ErrorCode where
  | ok : ErrorCode
  | operationAborted : ErrorCode
  | otherError : ErrorCode
deriving DecidableEq, Repr

/-- The action the `async_read_some` completion handler of
`Session::forward_data` takes (tcp_forwarder.cpp lines 388-405). -/
inductive ReadAction where
  | issueWrite : Nat → ReadAction
  | teardown : ReadAction
  | stop : ReadAction
deriving DecidableEq, Repr

/-- The read completion handler of `Session::forward_data`: on `!ec` it
issues `async_write(destination, buffer(buffer, length))` — for any `length`,
including 0; on `operation_aborted` it does nothing; on any other error it
calls `close_sockets()`. -/
def forward_data_read_handler (ec : ErrorCode) (length : Nat) : ReadAction :=
  match ec with
  | .ok => .issueWrite length
  | .operationAborted => .stop
  | .otherError => .teardown

/-- The action the `async_write` completion handler of
`Session::forward_data` takes: on success re-enter `forward_data` (read
again); on `operation_aborted` nothing; on any other error `close_sockets()`. -/
inductive WriteAction where
  | readAgain : WriteAction
  | teardown : WriteAction
  | stop : WriteAction
deriving DecidableEq, Repr

/-- The write completion handler of `Session::forward_data`
(tcp_forwarder.cpp lines 393-401). -/
def forward_data_write_handler (ec : ErrorCode) : WriteAction :=
  match ec with
  | .ok => .readAgain
  | .operationAborted => .stop
  | .otherError => .teardown

/-- The effect of one `async_read_some` on the session's direction buffer:
the kernel stores `data` at the front of the buffer; bytes past
`data.length` keep their previous contents. -/
def read_into_buffer (buffer data : List Nat) : List Nat :=
  data ++ buffer.drop data.length

/-- One direction's copy loop of `Session::forward_data` run over the chunks
the kernel delivers to successive reads (`reads`), each of size at most the
buffer size. Each step reads a chunk into the buffer, then writes exactly
`buffer.take length` (the `boost::asio::buffer(buffer, length)` passed to
`async_write`) to the destination, and only after that write completes does
it recurse into the next read. The loop ends when the source reports
EOF/error. Returns the concatenation of all bytes delivered to the
destination socket. -/
def forward_data_loop (buffer : List Nat) : List (List Nat) → List Nat
  | [] => []
  | d :: rest =>
    let buf := read_into_buffer buffer d
    buf.take d.length ++ forward_data_loop buf rest

/-- A `Session` lifecycle event: its constructor runs (`++active_connections_`,
tcp_forwarder.cpp line 320) or its destructor runs (`--active_connections_`,
line 337). -/
inductive SessionEvent where
  | create : SessionEvent
  | destroy : SessionEvent
deriving DecidableEq, Repr

/-- The value of `active_connections_` after a trace of session lifecycle
events, starting from counter value `c`: each constructor adds one, each
destructor subtracts one. -/
def counter_after (c : Int) (tr : List SessionEvent) : Int :=
  tr.foldl (fun acc e =>
    match e with
    | SessionEvent.create => acc + 1
    | SessionEvent.destroy => acc - 1) c

/-- C++ object-lifetime discipline for the trace: starting from `live`
currently-live sessions, every destructor in the trace belongs to an object
whose constructor already ran and whose destructor has not run yet — so a
destroy event can only occur while the number of live sessions is positive. -/
def lifetime_ok : Int → List SessionEvent → Bool
  | _, [] => true
  | live, SessionEvent.create :: rest => lifetime_ok (live + 1) rest
  | live, SessionEvent.destroy :: rest => decide (0 < live) && lifetime_ok (live - 1) rest

/-- The resources of one `Session` that teardown touches: whether each of
the two sockets is open, and how many times `active_connections_` has been
decremented on this session's behalf. -/
structure SessionResources where
  in_open : Bool
  out_open : Bool
  releases : Nat
deriving DecidableEq, Repr

/-- `Session::close_sockets` (tcp_forwarder.cpp lines 408-414): closes both
sockets through the error-code overload, so a socket already closed stays
closed and no error escapes. It does not touch `active_connections_`. -/
def close_sockets (s : SessionResources) : SessionResources :=
  { s with in_open := false, out_open := false }

/-- `Session::~Session` (tcp_forwarder.cpp lines 335-339): decrements
`active_connections_` once. It runs exactly once per object, after all
pending operations (hence all `close_sockets` calls) have completed. -/
def session_destructor (s : SessionResources) : SessionResources :=
  { s with releases := s.releases + 1 }

/-- Counts, over `k` successive invocations of `close_sockets` on state `s`,
how many of them actually transitioned the inbound (first component) and
outbound (second component) socket from open to closed. -/
def effective_closes : Nat → SessionResources → Nat × Nat
  | 0, _ => (0, 0)
  | k + 1, s =>
    let rest := effective_closes k (close_sockets s)
    ((if s.in_open then 1 else 0) + rest.1,
     (if s.out_open then 1 else 0) + rest.2)

/-- The timer completion handler installed by `HealthChecker::schedule_check`
(tcp_forwarder.cpp lines 447-456): given whether the wait ended in error
(`ec`), returns whether a heartbeat log line is emitted and whether the
check is rescheduled. Both happen only when `!ec`. -/
def schedule_check_handler (ec : Bool) : Bool × Bool :=
  if ec then (false, false) else (true, true)

/-- Heartbeats emitted over `fires` timer completions, where
`first_cancelled` says whether the first pending wait was cancelled (its
handler then runs with a non-zero error code). A completion that emits also
reschedules, arming a fresh (uncancelled) wait; a handler that does not
reschedule leaves no pending wait, so no further completion occurs. -/
def health_run (first_cancelled : Bool) : Nat → Nat
  | 0 => 0
  | n + 1 =>
    let r := schedule_check_handler first_cancelled
    (if r.1 then 1 else 0) + (if r.2 then health_run false n else 0)

/-- `main` (tcp_forwarder.cpp lines 568-578): when health checking is
enabled, the `HealthChecker` is a local variable of the `if` block — it is
constructed, `start()`ed, and destroyed at the closing brace, all before
`io_context.run()` is posted to any worker. Destroying its `steady_timer`
cancels the pending wait, so when the workers later run, the sole queued
handler fires with `operation_aborted`. Hence the number of heartbeats
emitted over any number of timer completions is `health_run true fires`. -/
def main_health_heartbeats (enabled : Bool) (fires : Nat) : Nat :=
  if enabled then health_run true fires else 0

/-! ## Theorems -/

/-- C1, as stated, is false: for the rule with listen range [8000, 8002] and
configured target port 9000, the expansion's target ports are
[8000, 8001, 8002] — the loop forwards each listener to the *same* port it
listens on — not [9000, 9001, 9002] as the claim's `target_base + i`
formula with target base 9000 predicts. -/
theorem C1_counterexample :
    (expand_rule ⟨"0.0.0.0", "10.0.0.1", some (8000, 8002), 0, 9000⟩).map
        (fun p => p.2.port) = [8000, 8001, 8002]
    ∧ (expand_rule ⟨"0.0.0.0", "10.0.0.1", some (8000, 8002), 0, 9000⟩).map
        (fun p => p.2.port) ≠ [9000, 9001, 9002] := by
  constructor
  · decide
  · decide

/-- C1 (amended): for every ForwardRule with a port range [start, end] with
start ≤ end, expansion produces exactly end - start + 1 independent
listeners, where the listener at offset i listens on start + i and forwards
to target port start + i: the target base port is implicitly the range
start (equivalently, each listener forwards to the target address on the
very port it listens on); the configured target_port field plays no role
for range rules. -/
theorem C1_range_expansion (la ta : String) (s e lp tp : Int) (h : s ≤ e) :
    ((expand_rule ⟨la, ta, some (s, e), lp, tp⟩).length : Int) = e - s + 1
    ∧ ∀ (i : Nat) (hi : i < (expand_rule ⟨la, ta, some (s, e), lp, tp⟩).length),
        (expand_rule ⟨la, ta, some (s, e), lp, tp⟩)[i]
          = (⟨la, s + (i : Int)⟩, ⟨ta, s + (i : Int)⟩) := by
  have hn : expand_rule ⟨la, ta, some (s, e), lp, tp⟩
      = (List.range (e + 1 - s).toNat).map
          (fun i => (⟨la, s + (i : Int)⟩, ⟨ta, s + (i : Int)⟩)) := by
    show expand_rule _ = _
    rfl
  constructor
  · rw [hn, List.length_map, List.length_range]
    omega
  · intro i hi
    simp only [hn] at hi ⊢
    simp only [List.getElem_map, List.getElem_range]

/-- Witness for C1_range_expansion at the spec's example range [8000, 8002]:
three listeners, and the one at offset 1 listens on 8001 and forwards to
port 8001 of the target address. -/
theorem C1_range_expansion_witness :
    ((expand_rule ⟨"0.0.0.0", "10.0.0.1", some (8000, 8002), 0, 9000⟩).length : Int)
      = 8002 - 8000 + 1 :=
  (C1_range_expansion "0.0.0.0" "10.0.0.1" 8000 8002 0 9000 (by decide)).1

/-- C3: whenever `active_connections_ >= max_connections` at the moment an
inbound connection is accepted, the handler closes the inbound socket
immediately, constructs no Session, attempts no outbound connect, and
leaves the counter unchanged (it still re-arms the accept and does not
terminate the process). -/
theorem C3_admission_rejection (max_connections retry_attempts active : Int)
    (h : active ≥ max_connections) :
    plz_accept_handler max_connections retry_attempts active AcceptEvent.acceptOk
      = { socket_closed := true, session_created := false, connect_attempted := false,
          counter := active, rearmed := true, process_terminated := false } := by
  simp only [plz_accept_handler, if_pos h]

/-- Witness for C3_admission_rejection: with ceiling 2 and 2 live sessions,
the accepted connection is rejected with no side effect on the counter. -/
theorem C3_admission_rejection_witness :
    plz_accept_handler 2 3 2 AcceptEvent.acceptOk
      = { socket_closed := true, session_created := false, connect_attempted := false,
          counter := 2, rearmed := true, process_terminated := false } :=
  C3_admission_rejection 2 3 2 (by decide)

/-- C7: after every accept completion — success (admitted or rejected) or
accept-level error — the `plz_accept` handler re-arms the asynchronous
accept, and no outcome terminates the process or stops the loop. -/
theorem C7_accept_loop_always_rearms (max_connections retry_attempts active : Int)
    (ev : AcceptEvent) :
    (plz_accept_handler max_connections retry_attempts active ev).rearmed = true
    ∧ (plz_accept_handler max_connections retry_attempts active ev).process_terminated
        = false := by
  cases ev
  · exact ⟨rfl, rfl⟩
  · simp only [plz_accept_handler]
    split <;> exact ⟨rfl, rfl⟩

/-- C10: with `max_connections = 0`, starting from the initial counter 0,
every accepted inbound connection is rejected — the check
`active_connections_ >= max_connections` compares a count that stays 0
against 0 with `>=`, which always holds — so each accepted socket is closed
immediately, no Session is ever created, and the counter remains 0, for any
sequence of accept completions. -/
theorem C10_zero_ceiling_rejects_all (retry_attempts : Int) (evs : List AcceptEvent) :
    accept_loop_run 0 retry_attempts 0 evs
      = (0, 0, evs.count AcceptEvent.acceptOk) := by
  induction evs with
  | nil => rfl
  | cons ev rest ih =>
    cases ev <;>
      simp [accept_loop_run, plz_accept_handler, ih, List.count_cons, Nat.add_comm]

/-- Helper: against an always-failing connect oracle, `attempt_connection`
starting at attempt counter `cur` produces `(retry_attempts - cur)⁺` blocks
of one connect attempt followed by one `retry_delay`-second timer wait, and
never reaches `plz_forward`. -/
theorem attempt_connection_all_fail (retry_attempts retry_delay cur : Int) :
    attempt_connection retry_attempts retry_delay (fun _ => false) cur
      = ((List.replicate (retry_attempts - cur).toNat
            [RetryEvent.connectAttempt, RetryEvent.timerWait retry_delay]).flatten,
         false) := by
  generalize hk : (retry_attempts - cur).toNat = k
  induction k generalizing cur with
  | zero =>
    have h : retry_attempts ≤ cur := by omega
    rw [attempt_connection, if_pos h]
    rfl
  | succ n ih =>
    have h : ¬ retry_attempts ≤ cur := by omega
    rw [attempt_connection, if_neg h]
    have h2 : (retry_attempts - (cur + 1)).toNat = n := by omega
    simp only [Bool.false_eq_true, if_false, ih (cur + 1) h2,
      List.replicate_succ, List.flatten_cons]
    rfl

/-- C2: when the target is unreachable on every connect attempt, the session
performs exactly `retry_attempts` connect attempts; the full event trace is
`retry_attempts` repetitions of one connect attempt followed by one
`retry_delay`-second timer wait (so consecutive attempts are separated by at
least `retry_delay` seconds via the per-session timer); and `plz_forward` is
never reached, so the forwarding loops never start and the session reaches
Closed (the handler returns with no pending operation, dropping the last
owner of the session). -/
theorem C2_retry_exhaustion (retry_attempts retry_delay : Int)
    (h : 0 ≤ retry_attempts) :
    (((attempt_connection retry_attempts retry_delay (fun _ => false) 0).1.count
        RetryEvent.connectAttempt : Nat) : Int) = retry_attempts
    ∧ attempt_connection retry_attempts retry_delay (fun _ => false) 0
        = ((List.replicate retry_attempts.toNat
              [RetryEvent.connectAttempt, RetryEvent.timerWait retry_delay]).flatten,
           false) := by
  have key := attempt_connection_all_fail retry_attempts retry_delay 0
  rw [Int.sub_zero] at key
  refine ⟨?_, key⟩
  rw [key]
  have hcount : List.count RetryEvent.connectAttempt
      [RetryEvent.connectAttempt, RetryEvent.timerWait retry_delay] = 1 := rfl
  rw [List.count_flatten, List.map_replicate, hcount, List.sum_replicate,
    smul_eq_mul, mul_one]
  omega

/-- Witness for C2_retry_exhaustion: with retry_attempts = 3 and
retry_delay = 2, an unreachable target yields exactly 3 connect attempts. -/
theorem C2_retry_exhaustion_witness :
    (((attempt_connection 3 2 (fun _ => false) 0).1.count
        RetryEvent.connectAttempt : Nat) : Int) = 3 :=
  (C2_retry_exhaustion 3 2 (by decide)).1

/-- C4, as stated, is false: a read that completes with zero bytes and no
error does not invoke teardown — `forward_data`'s read handler only tests
the error code, so on success with length 0 it issues a (zero-byte) write
and the loop then reads again; it does not behave like a non-cancellation
read error. -/
theorem C4_counterexample :
    forward_data_read_handler ErrorCode.ok 0 = ReadAction.issueWrite 0
    ∧ forward_data_read_handler ErrorCode.ok 0 ≠ ReadAction.teardown := by
  exact ⟨rfl, by decide⟩

/-- C4 (amended): in a copy loop of a Forwarding session, a read completing
with an error other than cancellation invokes teardown (closes both
sockets) and stops the loop, and so does a non-cancellation write error; a
cancelled read stops the loop without teardown. A read that completes with
zero bytes and no error, however, is treated like any successful read: the
handler issues a write of exactly the bytes read (here zero) and the loop
continues — TCP end-of-stream reaches this handler as the `eof` error, not
as a zero-length success. -/
theorem C4_read_error_teardown (length : Nat) :
    forward_data_read_handler ErrorCode.ok length = ReadAction.issueWrite length
    ∧ forward_data_read_handler ErrorCode.otherError length = ReadAction.teardown
    ∧ forward_data_read_handler ErrorCode.operationAborted length = ReadAction.stop
    ∧ forward_data_write_handler ErrorCode.otherError = WriteAction.teardown
    ∧ forward_data_write_handler ErrorCode.operationAborted = WriteAction.stop :=
  ⟨rfl, rfl, rfl, rfl, rfl⟩

/-- Helper: `active_connections_` after a trace equals the initial value
plus the number of constructor runs minus the number of destructor runs. -/
theorem counter_after_eq_counts (tr : List SessionEvent) (c : Int) :
    counter_after c tr
      = c + (tr.count SessionEvent.create : Int)
          - (tr.count SessionEvent.destroy : Int) := by
  induction tr generalizing c with
  | nil => simp [counter_after]
  | cons e rest ih =>
    cases e
    · have hstep : counter_after c (SessionEvent.create :: rest)
          = counter_after (c + 1) rest := rfl
      rw [hstep, ih]
      simp [List.count_cons]
      omega
    · have hstep : counter_after c (SessionEvent.destroy :: rest)
          = counter_after (c - 1) rest := rfl
      rw [hstep, ih]
      simp [List.count_cons]
      omega

/-- Helper: under the C++ object-lifetime discipline, the counter stays
nonnegative. -/
theorem counter_after_nonneg (tr : List SessionEvent) (c : Int)
    (hc : 0 ≤ c) (h : lifetime_ok c tr = true) : 0 ≤ counter_after c tr := by
  induction tr generalizing c with
  | nil => simpa [counter_after] using hc
  | cons e rest ih =>
    cases e
    · have hstep : counter_after c (SessionEvent.create :: rest)
          = counter_after (c + 1) rest := rfl
      rw [hstep]
      exact ih (c + 1) (by omega) (by simpa [lifetime_ok] using h)
    · have hstep : counter_after c (SessionEvent.destroy :: rest)
          = counter_after (c - 1) rest := rfl
      rw [hstep]
      have h2 : 0 < c ∧ lifetime_ok (c - 1) rest = true := by
        simpa [lifetime_ok] using h
      exact ih (c - 1) (by omega) h2.2

/-- C5: along any trace of Session constructor/destructor runs obeying C++
object lifetimes (each destructor belongs to a previously constructed,
not-yet-destroyed object), `active_connections_` — incremented exactly once
per constructor, decremented exactly once per destructor — equals the
number of Sessions created minus the number destroyed, and is never
negative. -/
theorem C5_counter_invariant (tr : List SessionEvent)
    (h : lifetime_ok 0 tr = true) :
    counter_after 0 tr
      = (tr.count SessionEvent.create : Int) - (tr.count SessionEvent.destroy : Int)
    ∧ 0 ≤ counter_after 0 tr := by
  refine ⟨?_, counter_after_nonneg tr 0 le_rfl h⟩
  have hc := counter_after_eq_counts tr 0
  omega

/-- Witness for C5_counter_invariant on the trace
create, create, destroy, create, destroy, destroy. -/
theorem C5_counter_invariant_witness :
    counter_after 0 [SessionEvent.create, SessionEvent.create, SessionEvent.destroy,
        SessionEvent.create, SessionEvent.destroy, SessionEvent.destroy]
      = (([SessionEvent.create, SessionEvent.create, SessionEvent.destroy,
          SessionEvent.create, SessionEvent.destroy, SessionEvent.destroy].count
            SessionEvent.create : Nat) : Int)
        - (([SessionEvent.create, SessionEvent.create, SessionEvent.destroy,
            SessionEvent.create, SessionEvent.destroy, SessionEvent.destroy].count
              SessionEvent.destroy : Nat) : Int)
    ∧ 0 ≤ counter_after 0 [SessionEvent.create, SessionEvent.create, SessionEvent.destroy,
        SessionEvent.create, SessionEvent.destroy, SessionEvent.destroy] :=
  C5_counter_invariant
    [SessionEvent.create, SessionEvent.create, SessionEvent.destroy,
     SessionEvent.create, SessionEvent.destroy, SessionEvent.destroy] (by decide)

/-- C6: each direction's relay is byte-exact and order-preserving. Under the
kernel contract that each read delivers at most `buffer_size` bytes into a
buffer of exactly `buffer_size` bytes, the copy loop — which writes exactly
the `length` bytes just read before issuing the next read — delivers to the
destination precisely the concatenation of the byte chunks read from the
source, in order. -/
theorem C6_byte_exact_relay (buffer_size : Nat) (buffer : List Nat)
    (reads : List (List Nat))
    (hb : buffer.length = buffer_size)
    (hr : ∀ d ∈ reads, d.length ≤ buffer_size) :
    forward_data_loop buffer reads = reads.flatten := by
  induction reads generalizing buffer with
  | nil => rfl
  | cons d rest ih =>
    have hd : d.length ≤ buffer_size := hr d (by simp)
    have h1 : (read_into_buffer buffer d).take d.length = d :=
      List.take_left d (buffer.drop d.length)
    have hlen : (read_into_buffer buffer d).length = buffer_size := by
      simp only [read_into_buffer, List.length_append, List.length_drop]
      omega
    have hrest : ∀ x ∈ rest, x.length ≤ buffer_size := fun x hx => hr x (by simp [hx])
    simp only [forward_data_loop, List.flatten_cons, h1,
      ih (read_into_buffer buffer d) hlen hrest]

/-- Witness for C6_byte_exact_relay: buffer size 4, reads of 4, 2 and 1
bytes; the destination receives their concatenation. -/
theorem C6_byte_exact_relay_witness :
    forward_data_loop [0, 0, 0, 0] [[1, 2, 3, 4], [5, 6], [7]]
      = [[1, 2, 3, 4], [5, 6], [7]].flatten :=
  C6_byte_exact_relay 4 [0, 0, 0, 0] [[1, 2, 3, 4], [5, 6], [7]]
    (by decide) (by decide)

/-- C8 is right about the intent but the code defeats it: because `main`
declares the `HealthChecker` inside the `if (health_check_enabled)` block,
the checker — and its `steady_timer` — are destroyed at the end of that
block, before `io_context.run()` is ever posted; the destructor cancels the
pending wait, the sole queued handler fires with a cancellation error, and
`schedule_check`'s handler neither emits nor reschedules on error. Hence
with health checking enabled, zero heartbeats are emitted no matter how
many timer completions the run loop processes. -/
theorem C8_no_heartbeat (fires : Nat) :
    main_health_heartbeats true fires = 0 := by
  cases fires <;>
    simp [main_health_heartbeats, health_run, schedule_check_handler]

/-- Helper: `close_sockets` on a session whose sockets are both already
closed effects no further open-to-closed transition, however often it is
invoked. -/
theorem effective_closes_of_closed (k : Nat) (s : SessionResources)
    (h1 : s.in_open = false) (h2 : s.out_open = false) :
    effective_closes k s = (0, 0) := by
  induction k generalizing s with
  | zero => rfl
  | succ n ih =>
    simp [effective_closes, h1, h2, ih (close_sockets s) rfl rfl]

/-- Helper: `close_sockets` never touches the release count. -/
theorem iterate_close_sockets_releases (k : Nat) (s : SessionResources) :
    (close_sockets^[k] s).releases = s.releases := by
  induction k generalizing s with
  | zero => rfl
  | succ n ih =>
    rw [Function.iterate_succ_apply, ih (close_sockets s)]
    rfl

/-- C9: teardown is idempotent. Starting from a session with both sockets
open and no release performed, any number k ≥ 1 of `close_sockets`
invocations (however many copy loops or paths trigger it) transitions each
socket from open to closed exactly once — closing an already-closed socket
is a no-op — and the single destructor run that follows releases the
admission counter exactly once for the session's lifetime; moreover
`close_sockets` is idempotent as a state transformer. -/
theorem C9_idempotent_teardown (k : Nat) (hk : 1 ≤ k) :
    effective_closes k ⟨true, true, 0⟩ = (1, 1)
    ∧ (session_destructor (close_sockets^[k] (⟨true, true, 0⟩ : SessionResources))).releases
        = 1
    ∧ ∀ s : SessionResources, close_sockets (close_sockets s) = close_sockets s := by
  refine ⟨?_, ?_, fun s => rfl⟩
  · obtain ⟨j, rfl⟩ : ∃ j, k = j + 1 := ⟨k - 1, by omega⟩
    simp [effective_closes, close_sockets,
      effective_closes_of_closed j ⟨false, false, 0⟩ rfl rfl]
  · simp [session_destructor, iterate_close_sockets_releases]

/-- Witness for C9_idempotent_teardown with two concurrent teardown
triggers (k = 2). -/
theorem C9_idempotent_teardown_witness :
    effective_closes 2 ⟨true, true, 0⟩ = (1, 1)
    ∧ (session_destructor (close_sockets^[2] (⟨true, true, 0⟩ : SessionResources))).releases
        = 1 :=
  ⟨(C9_idempotent_teardown 2 (by decide)).1,
   (C9_idempotent_teardown 2 (by decide)).2.1⟩

end ProxyForwarder
